import Mathlib

/-!
Verification development for the game core of `src/main.ts`
(CMPM 121 assignment D3: grid of token caches on a map).

The embedding keeps the gameplay state of the program — the value cache
`cellCache`, the held token `playerToken`, the cell the held token came from
`previousCell`, the running maximum `highestValue`, the text of the status
panel, and the number of win alerts shown — and translates the state-mutating
functions `updateHighestValue`, `setCell`, `collectToken`, `doubleToken`,
`spawnCache` and `updateVisibleCells` one by one.  Purely presentational
effects of the source (Leaflet rectangles, label markers, popup DOM nodes,
CSS styling, the map itself) are outside the embedded state; where a source
function touches them a comment records the omission.

The source keys `cellCache` by the string `` `${i},${j}` ``; since that
encoding is injective on integer pairs, the embedding keys the cache by the
pair `(i, j)` directly.  Cell values, always produced by the generator
(range 0–9), by doubling, or by the constant 0, are modelled as `Nat`.
Distances (meters, from Leaflet's `map.distance`) are modelled as `ℚ`.
-/

namespace D3

abbrev Coord := Int × Int

/-- The cache key `` `${i},${j}` `` built by the source for coordinate `(i, j)`. -/
def cellKey (i j : Int) : String := s!"{i},{j}"

/-- Modelled from the spec: the helper module `_luck.ts` is imported by
`main.ts` but is missing from the repository sources.  The spec describes it
as hashing the coordinate key string to a reproducible pseudo-random value in
`[0,1)`.  We model it as an arbitrary pure function from strings to `ℚ`; the
range constraint is the separate predicate `LuckBounded`. -/
def LuckFn : Type := String → ℚ

/-- The spec's range contract for the hash: every output lies in `[0, 1)`. -/
def LuckBounded (lk : LuckFn) : Prop := ∀ s, 0 ≤ lk s ∧ lk s < 1

/-- `const COLLECTION_RADIUS = 50; // meters` -/
def COLLECTION_RADIUS : ℚ := 50

/-- `const VALUE_THRESHOLD = 2048;` -/
def VALUE_THRESHOLD : Nat := 2048

/-- The mutable gameplay state of `main.ts`:
`cellCache` (the `Record<string, number>` of cell values, keyed here by the
coordinate pair), `playerToken` (`number | null`), `previousCell` (coordinate
and value of the cell the held token was lifted from; the source also stores
its rectangle and label, which are presentation handles), `highestValue`,
the text of the status panel, and the number of win `alert`s shown so far. -/
structure GameState where
  cellCache : Coord → Option Nat
  playerToken : Option Nat
  previousCell : Option (Coord × Nat)
  highestValue : Nat
  statusMsg : String
  alerts : Nat

/-- The initial state of the program: empty cache, nothing held,
`highestValue = 0`, status panel text `"No Cell Selected!"`, no alerts. -/
def initialState : GameState :=
  { cellCache := fun _ => none
    playerToken := none
    previousCell := none
    highestValue := 0
    statusMsg := "No Cell Selected!"
    alerts := 0 }

/-- `displayDistanceStatus(message)`: sets the status panel text. -/
def displayDistanceStatus (message : String) (s : GameState) : GameState :=
  { s with statusMsg := message }

/-- The win message `` `🏆 2048 reached! ${highestValue} ≥ ${VALUE_THRESHOLD}` ``
(ASCII rendering). -/
def winMsg (hv : Nat) : String := s!"2048 reached! {hv} >= 2048"

/-- `updateHighestValue(newValue)`: if `newValue > highestValue`, record it
(and update the high-score panel, a presentation effect); then, if the new
`highestValue` is at least `VALUE_THRESHOLD`, show the win status message and
fire `alert("🏆 Congratulations!")` — modelled by incrementing `alerts`. -/
def updateHighestValue (newValue : Nat) (s : GameState) : GameState :=
  if s.highestValue < newValue then
    let s1 := { s with highestValue := newValue }
    if VALUE_THRESHOLD ≤ s1.highestValue then
      { displayDistanceStatus (winMsg s1.highestValue) s1 with alerts := s1.alerts + 1 }
    else s1
  else s

/-- `isTooFar(distance)`: `distance > COLLECTION_RADIUS`. -/
def isTooFar (distance : ℚ) : Bool := decide (COLLECTION_RADIUS < distance)

/-- `setCell(i, j, value)`: writes `cellCache[`${i},${j}`] = value`, updates
the cell label (presentation only, omitted), and calls
`updateHighestValue(value)`. -/
def setCell (i j : Int) (value : Nat) (s : GameState) : GameState :=
  updateHighestValue value
    { s with cellCache := fun c => if c = (i, j) then some value else s.cellCache c }

/-- The "too far" status message `` `Too far! (${Math.round(distance)}m)` ``. -/
def tooFarMsg (distance : ℚ) : String :=
  let r : Int := round distance
  s!"Too far! ({r}m)"

/-- The "holding" status message of `collectToken`. -/
def holdingMsg (i j : Int) (v : Nat) : String :=
  s!"Holding: Cell [{i}, {j}] -> Value: {v}"

/-- The "double" status message of `doubleToken`. -/
def doubleMsg (i j : Int) (v : Nat) : String :=
  s!"Double: Cell [{i}, {j}] -> Value: {v}"

/-- `collectToken(i, j, rect, value, distance, label)`.  The `rect` and
`label` parameters are presentation handles and are dropped here.  Steps of
the source: reject (status message only) when too far; otherwise, if a token
is held and `previousCell` is set, return the previous value into its cell
via `setCell` (plus a style/popup update on its rectangle, omitted); then
hold the new token, remember the cell it came from, set the status message,
and clear the collected cell via `setCell(i, j, 0)` (plus a style/popup
update, omitted). -/
def collectToken (i j : Int) (value : Nat) (distance : ℚ) (s : GameState) : GameState :=
  if isTooFar distance then displayDistanceStatus (tooFarMsg distance) s
  else
    let s1 :=
      match s.playerToken, s.previousCell with
      | some _, some (pc, pv) => setCell pc.1 pc.2 pv s
      | _, _ => s
    let s2 := displayDistanceStatus (holdingMsg i j value)
      { s1 with playerToken := some value, previousCell := some ((i, j), value) }
    setCell i j 0 s2

/-- `doubleToken(i, j, rect, value, distance, label)` (presentation handles
dropped).  Reject (status message only) when too far; otherwise write the
doubled value with `setCell`, restyle and re-bind the popup (omitted), clear
`playerToken` and `previousCell`, and set the status message. -/
def doubleToken (i j : Int) (value : Nat) (distance : ℚ) (s : GameState) : GameState :=
  if isTooFar distance then displayDistanceStatus (tooFarMsg distance) s
  else
    let newValue := value * 2
    let s1 := setCell i j newValue s
    displayDistanceStatus (doubleMsg i j newValue)
      { s1 with playerToken := none, previousCell := none }

/-- The condition under which `makePopup` disables the Collect button:
only `isTooFar(distance)`. -/
def collectDisabled (distance : ℚ) : Bool := isTooFar distance

/-- The condition under which `makePopup` disables the Double button:
too far, or `playerToken == null`, or `playerToken !== value`. -/
def doubleDisabled (playerToken : Option Nat) (value : Nat) (distance : ℚ) : Bool :=
  if isTooFar distance then true
  else if playerToken = none then true
  else if playerToken ≠ some value then true
  else false

/-- The raw generated value of `spawnCache`:
`Math.floor(luck(`${i},${j}`) * 10)`.  For a hash output in `[0,1)` the
floor is a nonnegative integer, so taking `Int.toNat` is lossless. -/
def genRaw (lk : LuckFn) (i j : Int) : Nat := (Int.floor (lk (cellKey i j) * 10)).toNat

/-- The generated value after the dead-value rule `if (value === 3) value = 0;`. -/
def spawnValue (lk : LuckFn) (i j : Int) : Nat :=
  if genRaw lk i j = 3 then 0 else genRaw lk i j

/-- `spawnCache(i, j)`: computes the rectangle bounds (presentation,
omitted), generates the value, and — only when the value lies in the band
`1..4` — records it with `setCell` and binds the popup (omitted).  Cells
outside the band get no `cellCache` entry. -/
def spawnCache (lk : LuckFn) (i j : Int) (s : GameState) : GameState :=
  let value := spawnValue lk i j
  if 1 ≤ value ∧ value ≤ 4 then setCell i j value s else s

/-- The integers from `a` to `b` inclusive. -/
def intRange (a b : Int) : List Int :=
  (List.range (b - a + 1).toNat).map (fun k => a + (k : Int))

/-- The coordinate rectangle `iMin ≤ i ≤ iMax`, `jMin ≤ j ≤ jMax` scanned by
the nested loops of `updateVisibleCells`, in loop order. -/
def windowCoords (iMin iMax jMin jMax : Int) : List Coord :=
  (intRange iMin iMax).flatMap (fun i => (intRange jMin jMax).map (fun j => (i, j)))

/-- `updateVisibleCells()`.  The source derives `iMin..iMax`, `jMin..jMax`
from the map's pixel bounds via `conversion`; the embedding takes the window
directly.  It then clears every layer, every `cellCache` entry and every
label, and rebuilds each coordinate of the window with `spawnCache`. -/
def updateVisibleCells (lk : LuckFn) (iMin iMax jMin jMax : Int) (s : GameState) : GameState :=
  let cleared := { s with cellCache := fun _ => none }
  (windowCoords iMin iMax jMin jMax).foldl (fun st c => spawnCache lk c.1 c.2 st) cleared

/-- A concrete bounded hash used for concrete runs: constantly `1/5`, so
every raw generated value is `2` (a token-bearing band value). -/
def luckW : LuckFn := fun _ => 1 / 5

/-- The state after the program's initial `updateVisibleCells()` with the
view window `0 ≤ i ≤ 2`, `0 ≤ j ≤ 2` under the hash `luckW`: every visible
cell holds a generated token of value 2. -/
def wBase : GameState := updateVisibleCells luckW 0 2 0 2 initialState

/-- `wBase` after the player collects the token of cell `(1,1)` from within
range (distance 10 m ≤ 50 m). -/
def wCollected : GameState := collectToken 1 1 2 10 wBase

/-- A state holding no token whose cell `(0,0)` carries value 4
(for exercising `doubleToken` with its "token held" precondition violated). -/
def stC2 : GameState :=
  { initialState with
    cellCache := fun c => if c = ((0, 0) : Coord) then some 4 else none
    highestValue := 4 }

/-- A state holding a token of value 4 lifted from cell `(0,0)`, with cell
`(1,1)` carrying value 2 (for exercising collect-with-return). -/
def stW6 : GameState :=
  { initialState with
    cellCache := fun c => if c = ((1, 1) : Coord) then some 2 else none
    playerToken := some 4
    previousCell := some ((0, 0), 4)
    highestValue := 4 }

@[simp]
lemma displayDistanceStatus_cellCache (m : String) (s : GameState) :
    (displayDistanceStatus m s).cellCache = s.cellCache := rfl

@[simp]
lemma displayDistanceStatus_playerToken (m : String) (s : GameState) :
    (displayDistanceStatus m s).playerToken = s.playerToken := rfl

@[simp]
lemma displayDistanceStatus_previousCell (m : String) (s : GameState) :
    (displayDistanceStatus m s).previousCell = s.previousCell := rfl

@[simp]
lemma displayDistanceStatus_highestValue (m : String) (s : GameState) :
    (displayDistanceStatus m s).highestValue = s.highestValue := rfl

@[simp]
lemma displayDistanceStatus_alerts (m : String) (s : GameState) :
    (displayDistanceStatus m s).alerts = s.alerts := rfl

@[simp]
lemma updateHighestValue_cellCache (v : Nat) (s : GameState) :
    (updateHighestValue v s).cellCache = s.cellCache := by
  simp only [updateHighestValue, displayDistanceStatus]
  split <;> [split <;> rfl; rfl]

@[simp]
lemma updateHighestValue_playerToken (v : Nat) (s : GameState) :
    (updateHighestValue v s).playerToken = s.playerToken := by
  simp only [updateHighestValue, displayDistanceStatus]
  split <;> [split <;> rfl; rfl]

@[simp]
lemma updateHighestValue_previousCell (v : Nat) (s : GameState) :
    (updateHighestValue v s).previousCell = s.previousCell := by
  simp only [updateHighestValue, displayDistanceStatus]
  split <;> [split <;> rfl; rfl]

lemma updateHighestValue_highestValue (v : Nat) (s : GameState) :
    (updateHighestValue v s).highestValue = max s.highestValue v := by
  simp only [updateHighestValue, displayDistanceStatus]
  rcases lt_or_le s.highestValue v with h | h
  · rw [if_pos h, max_eq_right h.le]
    split <;> rfl
  · rw [if_neg (not_lt.mpr h), max_eq_left h]

lemma updateHighestValue_highestValue_ge (v : Nat) (s : GameState) :
    s.highestValue ≤ (updateHighestValue v s).highestValue := by
  rw [updateHighestValue_highestValue]; exact le_max_left _ _

@[simp]
lemma setCell_cellCache (i j : Int) (v : Nat) (s : GameState) (c : Coord) :
    (setCell i j v s).cellCache c = if c = (i, j) then some v else s.cellCache c := by
  simp only [setCell, updateHighestValue_cellCache]

@[simp]
lemma setCell_playerToken (i j : Int) (v : Nat) (s : GameState) :
    (setCell i j v s).playerToken = s.playerToken := by
  simp only [setCell, updateHighestValue_playerToken]

@[simp]
lemma setCell_previousCell (i j : Int) (v : Nat) (s : GameState) :
    (setCell i j v s).previousCell = s.previousCell := by
  simp only [setCell, updateHighestValue_previousCell]

lemma setCell_highestValue (i j : Int) (v : Nat) (s : GameState) :
    (setCell i j v s).highestValue = max s.highestValue v := by
  simp only [setCell]
  exact updateHighestValue_highestValue v _

lemma spawnCache_cellCache (lk : LuckFn) (i j : Int) (s : GameState) (c : Coord) :
    (spawnCache lk i j s).cellCache c =
      if c = (i, j) ∧ 1 ≤ spawnValue lk i j ∧ spawnValue lk i j ≤ 4
      then some (spawnValue lk i j) else s.cellCache c := by
  simp only [spawnCache]
  by_cases hb : 1 ≤ spawnValue lk i j ∧ spawnValue lk i j ≤ 4
  · rw [if_pos hb, setCell_cellCache]
    by_cases hc : c = (i, j)
    · rw [if_pos hc, if_pos ⟨hc, hb⟩]
    · rw [if_neg hc, if_neg (fun h => hc h.1)]
  · rw [if_neg hb, if_neg (fun h => hb h.2)]

@[simp]
lemma spawnCache_playerToken (lk : LuckFn) (i j : Int) (s : GameState) :
    (spawnCache lk i j s).playerToken = s.playerToken := by
  simp only [spawnCache]
  split <;> simp

@[simp]
lemma spawnCache_previousCell (lk : LuckFn) (i j : Int) (s : GameState) :
    (spawnCache lk i j s).previousCell = s.previousCell := by
  simp only [spawnCache]
  split <;> simp

lemma spawnMany_cellCache (lk : LuckFn) (L : List Coord) (s : GameState) (c : Coord) :
    (L.foldl (fun st p => spawnCache lk p.1 p.2 st) s).cellCache c =
      if c ∈ L ∧ 1 ≤ spawnValue lk c.1 c.2 ∧ spawnValue lk c.1 c.2 ≤ 4
      then some (spawnValue lk c.1 c.2) else s.cellCache c := by
  induction L generalizing s with
  | nil => simp
  | cons a L ih =>
    rw [List.foldl_cons, ih, spawnCache_cellCache]
    by_cases hac : c = a
    · subst hac
      by_cases hb : 1 ≤ spawnValue lk c.1 c.2 ∧ spawnValue lk c.1 c.2 ≤ 4
      · by_cases hL : c ∈ L <;> simp [hL, hb]
      · simp [hb]
    · by_cases hb : 1 ≤ spawnValue lk c.1 c.2 ∧ spawnValue lk c.1 c.2 ≤ 4
      · by_cases hL : c ∈ L <;> simp [hL, hb, hac]
      · simp [hb, hac]

lemma spawnMany_playerToken (lk : LuckFn) (L : List Coord) (s : GameState) :
    (L.foldl (fun st p => spawnCache lk p.1 p.2 st) s).playerToken = s.playerToken := by
  induction L generalizing s with
  | nil => rfl
  | cons a L ih => rw [List.foldl_cons, ih, spawnCache_playerToken]

lemma spawnMany_previousCell (lk : LuckFn) (L : List Coord) (s : GameState) :
    (L.foldl (fun st p => spawnCache lk p.1 p.2 st) s).previousCell = s.previousCell := by
  induction L generalizing s with
  | nil => rfl
  | cons a L ih => rw [List.foldl_cons, ih, spawnCache_previousCell]

lemma updateVisibleCells_cellCache (lk : LuckFn) (a b c d : Int) (s : GameState) (x : Coord) :
    (updateVisibleCells lk a b c d s).cellCache x =
      if x ∈ windowCoords a b c d ∧ 1 ≤ spawnValue lk x.1 x.2 ∧ spawnValue lk x.1 x.2 ≤ 4
      then some (spawnValue lk x.1 x.2) else none := by
  rw [updateVisibleCells, spawnMany_cellCache]

lemma updateVisibleCells_playerToken (lk : LuckFn) (a b c d : Int) (s : GameState) :
    (updateVisibleCells lk a b c d s).playerToken = s.playerToken := by
  rw [updateVisibleCells, spawnMany_playerToken]

lemma updateVisibleCells_previousCell (lk : LuckFn) (a b c d : Int) (s : GameState) :
    (updateVisibleCells lk a b c d s).previousCell = s.previousCell := by
  rw [updateVisibleCells, spawnMany_previousCell]

lemma genRaw_luckW (i j : Int) : genRaw luckW i j = 2 := by
  norm_num [genRaw, luckW]
  rfl

lemma spawnValue_luckW (i j : Int) : spawnValue luckW i j = 2 := by
  rw [spawnValue, genRaw_luckW]
  rfl

lemma wBase_cellCache : wBase.cellCache (1, 1) = some 2 := by
  rw [wBase, updateVisibleCells_cellCache]
  simp only [spawnValue_luckW]
  rw [if_pos ⟨by decide, by decide, by decide⟩]

lemma wCollected_cellCache : wCollected.cellCache (1, 1) = some 0 := by
  rw [wCollected, collectToken, if_neg (by decide : ¬ isTooFar 10 = true)]
  simp

/-- C1: the spec's mutation-durability round trip (`setState` then `evict`
then `materialize` yields the mutated state) fails in the code.  Here cell
`(1,1)` generates value 2; collecting it sets its cache entry to 0; after the
view moves away (window `5..7 × 5..7`, the entry is gone) and returns
(window `0..2 × 0..2`), `updateVisibleCells` re-runs the generator and the
cell is back to value 2, not the collected state 0 — there is no Mutation
Ledger in the code, `updateVisibleCells` deletes every `cellCache` entry and
rebuilds from `spawnCache` alone. -/
theorem C1_collected_cell_reverts_after_reentry :
    wBase.cellCache (1, 1) = some 2 ∧
    wCollected.cellCache (1, 1) = some 0 ∧
    (updateVisibleCells luckW 5 7 5 7 wCollected).cellCache (1, 1) = none ∧
    (updateVisibleCells luckW 0 2 0 2
      (updateVisibleCells luckW 5 7 5 7 wCollected)).cellCache (1, 1) = some 2 := by
  refine ⟨wBase_cellCache, wCollected_cellCache, ?_, ?_⟩
  · rw [updateVisibleCells_cellCache]
    rw [if_neg (fun h => (by decide : ((1, 1) : Coord) ∉ windowCoords 5 7 5 7) h.1)]
  · rw [updateVisibleCells_cellCache]
    simp only [spawnValue_luckW]
    rw [if_pos ⟨by decide, by decide, by decide⟩]

/-- C4: flyweight idempotence fails in the code.  Cell `(1,1)` is live and
mutated (collected, cache value 0) and stays inside the view window, yet
re-running `updateVisibleCells` with the very same window `0..2 × 0..2`
evicts it and immediately regenerates it from the generator, losing the
mutated state: its cache entry comes back as the generated value 2. -/
theorem C4_live_cell_regenerated_in_place :
    wCollected.cellCache (1, 1) = some 0 ∧
    (updateVisibleCells luckW 0 2 0 2 wCollected).cellCache (1, 1) = some 2 := by
  refine ⟨wCollected_cellCache, ?_⟩
  rw [updateVisibleCells_cellCache]
  simp only [spawnValue_luckW]
  rw [if_pos ⟨by decide, by decide, by decide⟩]

/-- C2 counterexample: `doubleToken` does not re-validate the "a token is
held" precondition.  In `stC2` no token is held and cell `(0,0)` has value 4;
calling `doubleToken` from within range (distance 10 m) nevertheless mutates
the cell to 8 and raises `HighestValueRecord` to 8, so a precondition failure
does not leave state unchanged. -/
theorem C2_double_no_token_counterexample :
    stC2.playerToken = none ∧
    stC2.cellCache (0, 0) = some 4 ∧
    (doubleToken 0 0 4 10 stC2).cellCache (0, 0) = some 8 ∧
    (doubleToken 0 0 4 10 stC2).highestValue = 8 := by
  refine ⟨rfl, by decide, ?_, ?_⟩
  · rw [doubleToken, if_neg (by decide : ¬ isTooFar 10 = true)]
    simp
  · rw [doubleToken, if_neg (by decide : ¬ isTooFar 10 = true)]
    simp only [displayDistanceStatus]
    rw [show (8 : Nat) = max stC2.highestValue (4 * 2) from rfl]
    exact setCell_highestValue 0 0 (4 * 2) stC2

/-- C2 (amended): `doubleToken` itself re-validates only the distance
precondition; when the distance exceeds the radius it leaves the cell cache,
the held token, `previousCell`, `HighestValueRecord` and the alert count
unchanged (status message only).  The held-token and value-match
preconditions are enforced only by the UI layer: `makePopup` disables the
Double button exactly unless the distance is in range and the held token
equals the cell's value. -/
theorem C2_double_revalidates_distance_only (s : GameState) (i j : Int) (v : Nat) (d : ℚ) :
    (isTooFar d = true →
      (doubleToken i j v d s).cellCache = s.cellCache ∧
      (doubleToken i j v d s).playerToken = s.playerToken ∧
      (doubleToken i j v d s).previousCell = s.previousCell ∧
      (doubleToken i j v d s).highestValue = s.highestValue ∧
      (doubleToken i j v d s).alerts = s.alerts) ∧
    (doubleDisabled s.playerToken v d = false ↔
      isTooFar d = false ∧ s.playerToken = some v) := by
  constructor
  · intro h
    rw [doubleToken, if_pos h]
    exact ⟨rfl, rfl, rfl, rfl, rfl⟩
  · rw [doubleDisabled]
    cases hf : isTooFar d with
    | true => simp [hf]
    | false =>
      simp only [if_neg (by simp [hf] : ¬ isTooFar d = true)]
      cases hpt : s.playerToken with
      | none => simp
      | some a =>
        by_cases hav : a = v
        · subst hav
          simp
        · simp [hav]

/-- C2 witness: a rejected-by-distance `doubleToken` call (60 m > 50 m)
leaves the cache and the record unchanged. -/
theorem C2_double_revalidates_distance_only_witness :
    (doubleToken 0 0 4 60 stC2).cellCache = stC2.cellCache ∧
    (doubleToken 0 0 4 60 stC2).highestValue = stC2.highestValue := by
  have h := (C2_double_revalidates_distance_only stC2 0 0 4 60).1 (by decide)
  exact ⟨h.1, h.2.2.2.1⟩

/-- C3 counterexample: the win notification is not single-fire.  Reaching
2048 fires the alert once; a later update that sets the strictly greater
maximum 4096 (also at or above the threshold) fires it a second time —
`updateHighestValue` has no fired-already flag. -/
theorem C3_threshold_refires_counterexample :
    (updateHighestValue 2048 initialState).alerts = 1 ∧
    (updateHighestValue 4096 (updateHighestValue 2048 initialState)).alerts = 2 := by
  decide

/-- C3 (amended): the win notification fires exactly on those updates that
set a new maximum (`newValue > highestValue`) at or above the threshold
2048 — so it fires at the first crossing, and again on every later update
that sets a strictly greater maximum at or above the threshold; it does not
fire on updates that leave the maximum unchanged. -/
theorem C3_alert_on_every_new_threshold_max (v : Nat) (s : GameState) :
    (updateHighestValue v s).alerts =
      s.alerts + (if s.highestValue < v ∧ VALUE_THRESHOLD ≤ v then 1 else 0) := by
  simp only [updateHighestValue, displayDistanceStatus]
  by_cases h1 : s.highestValue < v
  · by_cases h2 : VALUE_THRESHOLD ≤ v
    · simp [h1, h2]
    · simp [h1, h2]
  · simp [h1]

/-- C5 counterexample: `collectToken` does not re-validate the "cell has a
token" precondition.  Cell `(0,0)` has no token in `initialState` (no cache
entry), yet calling Collect on it from within range (10 m) mutates the held
token to `some 0`, records the cell as `previousCell`, and writes a cache
entry — the no-token case is not rejected by the core. -/
theorem C5_collect_no_token_counterexample :
    initialState.cellCache (0, 0) = none ∧
    initialState.playerToken = none ∧
    (collectToken 0 0 0 10 initialState).playerToken = some 0 ∧
    (collectToken 0 0 0 10 initialState).cellCache (0, 0) = some 0 ∧
    (collectToken 0 0 0 10 initialState).previousCell = some ((0, 0), 0) := by
  refine ⟨rfl, rfl, ?_, ?_, ?_⟩ <;>
    · rw [collectToken, if_neg (by decide : ¬ isTooFar 10 = true)]
      simp

/-- C5 (amended): `collectToken` rejects with no state change only on
distance: whenever the distance exceeds the radius, the cell cache, held
token, `previousCell`, `HighestValueRecord` and alert count are all
unchanged (status message only).  The no-token case is not checked by
`collectToken`; the UI avoids it only by binding Collect popups to
token-bearing cells. -/
theorem C5_collect_rejects_only_on_distance (s : GameState) (i j : Int) (v : Nat) (d : ℚ)
    (h : isTooFar d = true) :
    (collectToken i j v d s).cellCache = s.cellCache ∧
    (collectToken i j v d s).playerToken = s.playerToken ∧
    (collectToken i j v d s).previousCell = s.previousCell ∧
    (collectToken i j v d s).highestValue = s.highestValue ∧
    (collectToken i j v d s).alerts = s.alerts := by
  rw [collectToken, if_pos h]
  exact ⟨rfl, rfl, rfl, rfl, rfl⟩

/-- C5 witness: a Collect attempt from 200 m away with the 50 m radius is
rejected with the cell cache and the held token unchanged. -/
theorem C5_collect_rejects_only_on_distance_witness :
    (collectToken 0 0 7 200 initialState).cellCache = initialState.cellCache ∧
    (collectToken 0 0 7 200 initialState).playerToken = initialState.playerToken := by
  have h := C5_collect_rejects_only_on_distance initialState 0 0 7 200 (by decide)
  exact ⟨h.1, h.2.1⟩

/-- C6: collect/return symmetry.  Collecting at `(i,j)` (current value `a`,
within range) while holding a token of value `hv` lifted from `(bi,bj)`
restores `(bi,bj)` to value `hv` (token-bearing, since `hv > 0`), leaves
`(i,j)` at 0 (no token), and the newly held token is `a`, the value of
`(i,j)` before the collect. -/
theorem C6_collect_return_symmetry (s : GameState) (bi bj i j : Int) (hv a : Nat) (d : ℚ)
    (hpt : s.playerToken = some hv)
    (hpc : s.previousCell = some ((bi, bj), hv))
    (hne : ((bi, bj) : Coord) ≠ (i, j))
    (_hpos : 0 < hv)
    (_hcell : s.cellCache (i, j) = some a)
    (hfar : isTooFar d = false) :
    (collectToken i j a d s).cellCache (bi, bj) = some hv ∧
    (collectToken i j a d s).cellCache (i, j) = some 0 ∧
    (collectToken i j a d s).playerToken = some a ∧
    (collectToken i j a d s).previousCell = some ((i, j), a) := by
  rw [collectToken, if_neg (by simp [hfar] : ¬ isTooFar d = true), hpt, hpc]
  refine ⟨?_, ?_, ?_, ?_⟩ <;> simp [displayDistanceStatus, hne]

/-- C6 witness: in `stW6` (holding 4 from `(0,0)`, cell `(1,1)` at value 2),
collecting at `(1,1)` from 10 m restores `(0,0)` to 4, empties `(1,1)`, and
the held token becomes 2. -/
theorem C6_collect_return_symmetry_witness :
    (collectToken 1 1 2 10 stW6).cellCache (0, 0) = some 4 ∧
    (collectToken 1 1 2 10 stW6).cellCache (1, 1) = some 0 ∧
    (collectToken 1 1 2 10 stW6).playerToken = some 2 := by
  have h := C6_collect_return_symmetry stW6 0 0 1 1 4 2 10 rfl rfl (by decide) (by decide)
    (by decide) (by decide)
  exact ⟨h.1, h.2.1, h.2.2.1⟩

/-- C7: the generator's dead-value and band rule.  For a bounded hash the
raw value `Math.floor(luck(key) * 10)` lies in `[0, 9]`; on a coordinate
with no cache entry, a raw value other than 3 lying in the band `1..4`
yields a cache entry equal to the raw value (a token-bearing cell), while
raw value 3 (the dead value) and every raw value outside the band leave the
cell without a token (no cache entry). -/
theorem C7_generator_band_rule (lk : LuckFn) (hlk : LuckBounded lk) (i j : Int)
    (s : GameState) (hfresh : s.cellCache (i, j) = none) :
    genRaw lk i j ≤ 9 ∧
    (genRaw lk i j ≠ 3 ∧ 1 ≤ genRaw lk i j ∧ genRaw lk i j ≤ 4 →
      (spawnCache lk i j s).cellCache (i, j) = some (genRaw lk i j)) ∧
    (genRaw lk i j = 3 ∨ genRaw lk i j < 1 ∨ 4 < genRaw lk i j →
      (spawnCache lk i j s).cellCache (i, j) = none) := by
  obtain ⟨h0, h1⟩ := hlk (cellKey i j)
  refine ⟨?_, ?_, ?_⟩
  · rw [genRaw]
    have h10 : lk (cellKey i j) * 10 < 10 := by
      have := mul_lt_mul_of_pos_right h1 (by norm_num : (0 : ℚ) < 10)
      linarith
    have hfl : Int.floor (lk (cellKey i j) * 10) < 10 := by
      rw [Int.floor_lt]
      push_cast
      exact h10
    omega
  · rintro ⟨hne3, hge, hle⟩
    have hsv : spawnValue lk i j = genRaw lk i j := by rw [spawnValue, if_neg hne3]
    rw [spawnCache]
    rw [if_pos (by rw [hsv]; exact ⟨hge, hle⟩)]
    rw [setCell_cellCache, if_pos rfl, hsv]
  · rintro (h3 | hlt | hgt)
    · have hsv : spawnValue lk i j = 0 := by rw [spawnValue, if_pos h3]
      rw [spawnCache, if_neg (by rw [hsv]; omega)]
      exact hfresh
    · have hsv : spawnValue lk i j = genRaw lk i j := by
        rw [spawnValue, if_neg (by omega)]
      rw [spawnCache, if_neg (by rw [hsv]; omega)]
      exact hfresh
    · have hsv : spawnValue lk i j = genRaw lk i j := by
        rw [spawnValue, if_neg (by omega)]
      rw [spawnCache, if_neg (by rw [hsv]; omega)]
      exact hfresh

/-- C7 witness: under the hash `luckW` (constantly `1/5`) the raw value at
`(7,7)` is 2, which is in the band, so spawning writes a token of value 2. -/
theorem C7_generator_band_rule_witness :
    (spawnCache luckW 7 7 initialState).cellCache (7, 7) = some 2 := by
  have h := (C7_generator_band_rule luckW
    (fun _ => ⟨by norm_num [luckW], by norm_num [luckW]⟩) 7 7 initialState rfl).2.1
    (by simp [genRaw_luckW])
  rw [genRaw_luckW] at h
  exact h

/-- C8: Double monotonicity.  A successful Double (distance within radius)
on a cell called with value `v` writes exactly `2 × v` (never a decrease,
since `v ≤ 2v`), clears the held token, and cannot decrease
`HighestValueRecord`; moreover `updateHighestValue` never decreases the
record on any cell-value update. -/
theorem C8_double_monotonicity (s : GameState) (i j : Int) (v : Nat) (d : ℚ)
    (hfar : isTooFar d = false) :
    (doubleToken i j v d s).cellCache (i, j) = some (2 * v) ∧
    v ≤ 2 * v ∧
    (doubleToken i j v d s).playerToken = none ∧
    s.highestValue ≤ (doubleToken i j v d s).highestValue ∧
    ∀ (w : Nat) (t : GameState), t.highestValue ≤ (updateHighestValue w t).highestValue := by
  rw [doubleToken, if_neg (by simp [hfar] : ¬ isTooFar d = true)]
  refine ⟨?_, by omega, rfl, ?_, fun w t => updateHighestValue_highestValue_ge w t⟩
  · simp [displayDistanceStatus, Nat.mul_comm]
  · simp only [displayDistanceStatus]
    calc s.highestValue ≤ max s.highestValue (v * 2) := le_max_left _ _
      _ = (setCell i j (v * 2) s).highestValue := (setCell_highestValue i j (v * 2) s).symm

/-- C8 witness: doubling value 2 at `(0,0)` from 10 m writes 4 and clears
the held token. -/
theorem C8_double_monotonicity_witness :
    (doubleToken 0 0 2 10 initialState).cellCache (0, 0) = some 4 ∧
    (doubleToken 0 0 2 10 initialState).playerToken = none := by
  have h := C8_double_monotonicity initialState 0 0 2 10 (by decide)
  exact ⟨h.1, h.2.2.1⟩

/-- C9: generator determinism.  Cell generation reads nothing but the
coordinate (and the fixed hash): rebuilding the view from any two prior
states, with any two windows both containing the coordinate `x`, yields the
same cache entry for `x` — re-derivation across arbitrary eviction/reload
cycles and call orders is reproducible. -/
theorem C9_generator_determinism (lk : LuckFn) (s₁ s₂ : GameState)
    (a₁ b₁ c₁ d₁ a₂ b₂ c₂ d₂ : Int) (x : Coord)
    (h₁ : x ∈ windowCoords a₁ b₁ c₁ d₁) (h₂ : x ∈ windowCoords a₂ b₂ c₂ d₂) :
    (updateVisibleCells lk a₁ b₁ c₁ d₁ s₁).cellCache x =
      (updateVisibleCells lk a₂ b₂ c₂ d₂ s₂).cellCache x := by
  rw [updateVisibleCells_cellCache, updateVisibleCells_cellCache]
  by_cases hb : 1 ≤ spawnValue lk x.1 x.2 ∧ spawnValue lk x.1 x.2 ≤ 4
  · rw [if_pos ⟨h₁, hb⟩, if_pos ⟨h₂, hb⟩]
  · rw [if_neg (fun h => hb h.2), if_neg (fun h => hb h.2)]

/-- C9 witness: regenerating `(1,1)` from two different histories (the fresh
initial state with window `0..2 × 0..2`, and a mutated state with window
`1..3 × 1..3`) yields the same cache entry. -/
theorem C9_generator_determinism_witness :
    (updateVisibleCells luckW 0 2 0 2 initialState).cellCache (1, 1) =
      (updateVisibleCells luckW 1 3 1 3 (setCell 0 0 7 initialState)).cellCache (1, 1) :=
  C9_generator_determinism luckW initialState (setCell 0 0 7 initialState)
    0 2 0 2 1 3 1 3 (1, 1) (by decide) (by decide)

/-- C10: the collection boundary is inclusive.  `isTooFar` rejects exactly
the distances strictly greater than the 50 m radius, so at a distance of
exactly 50 m Collect proceeds (the token is taken) and Double proceeds (the
value is doubled). -/
theorem C10_radius_boundary_inclusive (s : GameState) (i j : Int) (v : Nat) :
    isTooFar COLLECTION_RADIUS = false ∧
    (∀ d : ℚ, isTooFar d = true ↔ COLLECTION_RADIUS < d) ∧
    (collectToken i j v COLLECTION_RADIUS s).playerToken = some v ∧
    (doubleToken i j v COLLECTION_RADIUS s).cellCache (i, j) = some (v * 2) := by
  refine ⟨by decide, fun d => by simp [isTooFar], ?_, ?_⟩
  · rw [collectToken, if_neg (by decide : ¬ isTooFar COLLECTION_RADIUS = true)]
    simp
  · rw [doubleToken, if_neg (by decide : ¬ isTooFar COLLECTION_RADIUS = true)]
    simp

/-- C10 witness: at a distance of exactly `COLLECTION_RADIUS`, Collect takes
the token (value 3) and Double writes 6. -/
theorem C10_radius_boundary_inclusive_witness :
    (collectToken 0 0 3 COLLECTION_RADIUS initialState).playerToken = some 3 ∧
    (doubleToken 0 0 3 COLLECTION_RADIUS initialState).cellCache (0, 0) = some 6 := by
  have h := C10_radius_boundary_inclusive initialState 0 0 3
  exact ⟨h.2.2.1, h.2.2.2⟩

end D3
